import Mathlib

/-!
# Verification of the universal-mail automation decision engine

Shallow embedding of the repository's core decision engine and batch
orchestration code, together with theorems settling the specification
claims about it.

Embedded source files:
* `src/core/rules.py` — taxonomy (`LABEL_RULES`, `PRIORITY_TIERS`),
  classifier (`_find_best_label`, `categorize_from_strings`), VIP layer
  (`check_vip_sender`, `categorize_with_tier`) and the age escalator
  (`escalate_by_age`).
* `src/core/state.py` — `StateManager` (JSON state file persistence).
* `src/cli.py` — `run_labeler` batch orchestration loop.
* `src/gmail_labeler.py` — legacy `GmailLabeler.run` loop and its
  `StateManager`.
* `src/providers/base.py` — `EmailProvider.apply_actions` default
  implementation.

Python strings are modelled as `List Char`, Python ints as `Int` (or `Nat`
where the source only ever holds naturals), floats that the code compares
against integer thresholds as `ℚ`, dicts as insertion-ordered association
lists, and calls into the external backing store as oracle functions
returning `Except`.
-/

namespace Mail

/-! ## Regular expressions

The taxonomy's patterns only use: literal characters, `\c` escapes,
`.` (any character except newline), `.*`, `.?`, and the `$` end anchor.
`re.search` with `re.IGNORECASE` is modelled by a matcher over lowercased
characters that may start at any suffix of the text. -/

/-- Regex AST: exactly the constructs occurring in the source's patterns. -/
inductive Regex where
  | eps : Regex
  | char (c : Char) : Regex
  | dotAny : Regex
  | dotStar : Regex
  | dotOpt : Regex
  | eol : Regex
  | seq (a b : Regex) : Regex
deriving Repr, DecidableEq

/-- All suffixes obtainable from `s` by consuming zero or more
non-newline characters (the remainders `.*` can leave). -/
def nlSuffixes : List Char → List (List Char)
  | [] => [[]]
  | c :: cs => (c :: cs) :: (if c = '\n' then [] else nlSuffixes cs)

/-- Case-insensitive character comparison (`re.IGNORECASE`). -/
def charIMatch (p c : Char) : Bool := p.toLower == c.toLower

/-- All remainders after matching `r` against a prefix of `s`. -/
def consume : Regex → List Char → List (List Char)
  | .eps, s => [s]
  | .char _, [] => []
  | .char p, c :: cs => if charIMatch p c then [cs] else []
  | .dotAny, [] => []
  | .dotAny, c :: cs => if c = '\n' then [] else [cs]
  | .dotStar, s => nlSuffixes s
  | .dotOpt, [] => [[]]
  | .dotOpt, c :: cs => (c :: cs) :: (if c = '\n' then [] else [cs])
  | .eol, [] => [[]]
  | .eol, s => if s = ['\n'] then [s] else []
  | .seq a b, s => (consume a s).flatMap (consume b)

/-- All suffixes of `s` (the candidate match start positions of
`re.search`). -/
def allSuffixes : List Char → List (List Char)
  | [] => [[]]
  | c :: cs => (c :: cs) :: allSuffixes cs

/-- `re.search(r, s)`: does `r` match somewhere inside `s`? -/
def searchB (r : Regex) (s : List Char) : Bool :=
  (allSuffixes s).any (fun t => !(consume r t).isEmpty)

/-- Compile a Python pattern string (restricted to the constructs the
source uses) into a `Regex`. -/
def compilePat : List Char → Regex
  | [] => .eps
  | '\\' :: c :: rest => .seq (.char c) (compilePat rest)
  | ['\\'] => .eps
  | '.' :: '*' :: rest => .seq .dotStar (compilePat rest)
  | '.' :: '?' :: rest => .seq .dotOpt (compilePat rest)
  | '.' :: rest => .seq .dotAny (compilePat rest)
  | '$' :: rest => .seq .eol (compilePat rest)
  | c :: rest => .seq (.char c) (compilePat rest)

/-- Compile a pattern given as a string. -/
def compile (p : String) : Regex := compilePat p.data

/-! ## Taxonomy (`LABEL_RULES` in `src/core/rules.py`) -/

/-- One category rule of the taxonomy. -/
structure Rule where
  label : String
  patterns : List String
  priority : Nat
  tier : Nat
  time_sensitive : Bool
deriving Repr, DecidableEq

/-- `f"{sender} {subject}".lower()`, as a character list. -/
def combined (sender subject : String) : List Char :=
  (sender.data ++ [' '] ++ subject.data).map Char.toLower

/-- Does any pattern of the rule match the combined text?
(`re.search(pattern, combined_text, re.IGNORECASE)` over the rule's
pattern list.) -/
def ruleMatches (r : Rule) (text : List Char) : Bool :=
  r.patterns.any (fun p => searchB (compile p) text)

/-- The `LABEL_RULES` table of `src/core/rules.py`, in declaration order. -/
def LABEL_RULES : List Rule := [
  { label := "Dev/GitHub",
    patterns := ["github\\.com", "notifications@github", "@reply\\.github\\.com", "copilot", "ivi374forivi"],
    priority := 1, tier := 2, time_sensitive := false },
  { label := "Dev/Code-Review",
    patterns := ["coderabb", "sourcery", "qodo", "codacy", "copilot", "llamapre"],
    priority := 2, tier := 2, time_sensitive := true },
  { label := "Dev/Infrastructure",
    patterns := ["cloudflare", "vercel", "netlify", "digitalocean", "railway", "render\\.com", "newrelic", "pieces\\.app", "hashicorp"],
    priority := 3, tier := 3, time_sensitive := false },
  { label := "Dev/GameDev",
    patterns := ["unity3d\\.com", "unity\\.com", "unrealengine", "godotengine"],
    priority := 3, tier := 3, time_sensitive := false },
  { label := "AI/Services",
    patterns := ["openai", "anthropic", "claude", "x\\.ai", "xai\\.com", "xAI LLC", "perplexity", "meta\\.com", "ollama", "sudowrite"],
    priority := 4, tier := 3, time_sensitive := false },
  { label := "AI/Grok",
    patterns := ["grok", "x\\.ai.*grok"],
    priority := 5, tier := 3, time_sensitive := false },
  { label := "AI/Data Exports",
    patterns := ["data export", "export is ready", "download.*data"],
    priority := 6, tier := 2, time_sensitive := true },
  { label := "Finance/Banking",
    patterns := ["chase", "capital.?one", "verizon", "gemini", "experian", "chime", "kikoff", "self\\.inc", "nav\\.com", "bankofamerica", "wellsfargo", "citi", "usbank", "ally", "marcus", "regions", "pnc"],
    priority := 7, tier := 1, time_sensitive := true },
  { label := "Finance/Payments",
    patterns := ["paypal", "stripe", "kovo", "cash.?app", "true.?finance", "square", "braintree", "plaid", "capitalone", "joingerald", "vola", "venmo", "zelle", "att", "xfinity", "spectrum", "conedison", "discover", "american.?express", "barclaycard", "statement", "invoice", "payment.*due"],
    priority := 8, tier := 2, time_sensitive := true },
  { label := "Finance/Tax",
    patterns := ["intuit", "turbotax", "hrblock", "taxact", "taxslayer", "irs\\.gov", "taxrise"],
    priority := 8, tier := 2, time_sensitive := true },
  { label := "Tech/Security",
    patterns := ["1password", "security.*alert", "login.*detected", "new.*device", "password.*reset", "verification.*code", "dropbox", "todoist", "login\\.gov"],
    priority := 9, tier := 1, time_sensitive := true },
  { label := "Tech/Google",
    patterns := ["@google\\.com", "cloudsupport@", "google.*cloud", "gcp", "workspace", "payments\\.google\\.com"],
    priority := 9, tier := 2, time_sensitive := true },
  { label := "Shopping",
    patterns := ["uber", "amazon", "ebay", "etsy", "walmart", "target", "deepview", "squarespace", "lafitness", "bestbuy", "costco", "wayfair", "chewy", "zara", "hm\\.com", "gap\\.com", "oldnavy", "nike", "adidas", "nordstrom", "macys", "uniqlo", "lululemon", "order.*confirm", "shipped", "tracking", "fjallraven"],
    priority := 10, tier := 4, time_sensitive := false },
  { label := "Personal/Health",
    patterns := ["walgreens", "cvs", "pharmacy", "prescription", "health\\.nyc\\.gov", "trinity-health", "myhealth"],
    priority := 10, tier := 2, time_sensitive := true },
  { label := "Social/LinkedIn",
    patterns := ["linkedin\\.com", "linkedin.*network", "linkedin.*job"],
    priority := 11, tier := 3, time_sensitive := false },
  { label := "Travel",
    patterns := ["united\\.com", "aa\\.com", "delta\\.com", "southwest", "jetblue", "alaskaair", "spirit", "flyfrontier", "marriott", "hilton", "hyatt", "ihg", "airbnb", "vrbo", "booking\\.com", "hotels\\.com", "expedia", "kayak", "priceline", "orbitz", "hotwire", "itinerary", "boarding.*pass", "flight.*confirm"],
    priority := 11, tier := 2, time_sensitive := true },
  { label := "Entertainment",
    patterns := ["fandango", "audible", "netflix", "spotify", "letterboxd", "popcorn.?frights", "warprecords", "musescore", "justwatch", "thefilmjunkies", "louisck"],
    priority := 12, tier := 4, time_sensitive := false },
  { label := "Education/Research",
    patterns := ["coursera", "udemy", "skillshare", "edx", "khanacademy", "scholar\\.google", "researchgate", "arxiv", "academia\\.edu", "learning", "orcid\\.org"],
    priority := 13, tier := 3, time_sensitive := false },
  { label := "Professional/Jobs",
    patterns := ["higheredjobs", "indeed", "linkedin.*jobs", "glassdoor", "jobot", "builtin\\.com", "ziprecruiter", "monster", "recruiterflow"],
    priority := 14, tier := 2, time_sensitive := true },
  { label := "Professional/Legal",
    patterns := ["legalzoom", "longofirm", "law\\.com", "attorney", "legal.*notice"],
    priority := 14, tier := 2, time_sensitive := true },
  { label := "Services/Domain",
    patterns := ["namecheap", "godaddy", "domain.*renew", "dns", "e\\.godaddy\\.com"],
    priority := 15, tier := 2, time_sensitive := true },
  { label := "Notification",
    patterns := ["notification", "alert", "reminder", "automatic.?appointment", "udemy.*instructor", "google.*workspace", "trinity-health", "deepview", "todoist"],
    priority := 16, tier := 3, time_sensitive := false },
  { label := "Marketing",
    patterns := ["unsubscribe", "newsletter", "promo", "special.*offer", "offer", "discount", "sale", "hims", "substack", "scaleclients", "collabwriting", "beehiiv", "coursera", "jupitrr", "myhumandesign", "ibo\\.org", "sendfox"],
    priority := 17, tier := 4, time_sensitive := false },
  { label := "Tech/Storage",
    patterns := ["filerev", "box\\.com", "onedrive", "gdrive", "icloud", "sync\\.com"],
    priority := 17, tier := 3, time_sensitive := false },
  { label := "Personal/Government",
    patterns := ["\\.gov$", "@.*\\.gov", "flhsmv", "passport", "social.*security", "ssa\\.gov", "irs\\.gov", "dmv", "state\\.fl\\.us"],
    priority := 17, tier := 1, time_sensitive := true },
  { label := "Personal",
    patterns := ["padavano\\.anthony", "family", "mom", "dad"],
    priority := 18, tier := 1, time_sensitive := true },
  { label := "Awaiting Reply",
    patterns := ["awaiting.*reply", "pending.*response"],
    priority := 19, tier := 2, time_sensitive := true },
  { label := "Misc/Other",
    patterns := [".*"],
    priority := 999, tier := 4, time_sensitive := false }
]

/-! ## Classifier (`_find_best_label`) -/

/-- One iteration of `_find_best_label`'s scan: the rule becomes the new
best exactly when one of its patterns matches and its priority is
strictly below the current best priority (`best_priority` starts at
`9999`). -/
def stepRule (text : List Char) (acc : Option String × Nat) (r : Rule) :
    Option String × Nat :=
  if ruleMatches r text = true ∧ r.priority < acc.2 then (some r.label, r.priority)
  else acc

/-- The scan over the whole rule table. -/
def findBest (rules : List Rule) (text : List Char) : Option String × Nat :=
  rules.foldl (stepRule text) (none, 9999)

/-- `_find_best_label(combined_text)`: the winning label, or
`"Misc/Other"` when nothing was recorded (`best_match or "Misc/Other"`). -/
def findBestLabel (rules : List Rule) (text : List Char) : String :=
  (findBest rules text).1.getD "Misc/Other"

/-- `categorize_from_strings(sender, subject)`. -/
def categorize_from_strings (sender subject : String) : String :=
  findBestLabel LABEL_RULES (combined sender subject)

/-! ## Priority tiers (`PRIORITY_TIERS`) -/

/-- Configuration for a priority tier (`PriorityTier` dataclass). -/
structure PriorityTier where
  number : Nat
  name : String
  color : String
  folder : Option String
  keep_in_inbox : Bool
  star : Bool
deriving Repr, DecidableEq

/-- The tier-1 ("Critical") configuration. -/
def tierCritical : PriorityTier :=
  { number := 1, name := "Critical", color := "red", folder := some "Action/Critical",
    keep_in_inbox := true, star := true }

/-- The tier-2 ("Important") configuration. -/
def tierImportant : PriorityTier :=
  { number := 2, name := "Important", color := "yellow", folder := some "Action/Important",
    keep_in_inbox := true, star := false }

/-- The tier-3 ("Delegate") configuration. -/
def tierDelegate : PriorityTier :=
  { number := 3, name := "Delegate", color := "blue", folder := some "Action/Delegate",
    keep_in_inbox := false, star := false }

/-- The tier-4 ("Reference") configuration. -/
def tierReference : PriorityTier :=
  { number := 4, name := "Reference", color := "green", folder := none,
    keep_in_inbox := false, star := false }

/-- The `PRIORITY_TIERS` dict of `src/core/rules.py`. -/
def PRIORITY_TIERS : List (Nat × PriorityTier) :=
  [(1, tierCritical), (2, tierImportant), (3, tierDelegate), (4, tierReference)]

/-! ## VIP sender system -/

/-- Configuration for a VIP sender (`VIPSender` dataclass). -/
structure VIPSender where
  pattern : String
  tier : Nat
  star : Bool
  label_override : Option String
  note : String
deriving Repr, DecidableEq

/-- `check_vip_sender(sender)`: first entry of the registry (in
registration order) whose pattern matches the lowercased sender, paired
with its key. The mutable module-level `VIP_SENDERS` dict is passed
explicitly as `vips` (it is empty in the source and populated from
configuration at runtime). -/
def check_vip_sender (vips : List (String × VIPSender)) (sender : String) :
    Option (VIPSender × String) :=
  match vips.find? (fun kv => searchB (compile kv.2.pattern) (sender.data.map Char.toLower)) with
  | some kv => some (kv.2, kv.1)
  | none => none

/-- Result of categorizing an email (`CategorizationResult` dataclass). -/
structure CategorizationResult where
  label : String
  tier : Nat
  time_sensitive : Bool
  tier_config : PriorityTier
  is_vip : Bool
  vip_note : String
deriving Repr, DecidableEq

/-- `rule.get("time_sensitive", default)` after `LABEL_RULES.get(label, …)`:
the matched rule's flag, or `default` when `label` is not a key. -/
def lookupTimeSensitive (label : String) (default : Bool) : Bool :=
  match LABEL_RULES.find? (fun r => r.label == label) with
  | some r => r.time_sensitive
  | none => default

/-- `categorize_with_tier(sender, subject)` of `src/core/rules.py`.
The VIP registry is an explicit argument (see `check_vip_sender`).
Python's `if vip.label_override:` is a truthiness test, so an empty
override string behaves like no override. In the non-VIP branch the
source indexes `LABEL_RULES[label]` directly; that lookup cannot fail
because the classifier only returns keys of the table, and the `none`
arm below (which Python would turn into a `KeyError`) is unreachable. -/
def categorize_with_tier (vips : List (String × VIPSender)) (sender subject : String) :
    CategorizationResult :=
  match check_vip_sender vips sender with
  | some (vip, _key) =>
    let tier := vip.tier
    let tier_config := (PRIORITY_TIERS.lookup tier).getD tierCritical
    if vip.label_override.getD "" ≠ "" then
      let label := vip.label_override.getD ""
      { label := label, tier := tier,
        time_sensitive := lookupTimeSensitive label true,
        tier_config := tier_config, is_vip := true, vip_note := vip.note }
    else
      let label := findBestLabel LABEL_RULES (combined sender subject)
      { label := label, tier := tier,
        time_sensitive := lookupTimeSensitive label true,
        tier_config := tier_config, is_vip := true, vip_note := vip.note }
  | none =>
    let label := findBestLabel LABEL_RULES (combined sender subject)
    match LABEL_RULES.find? (fun r => r.label == label) with
    | some r =>
      { label := label, tier := r.tier, time_sensitive := r.time_sensitive,
        tier_config := (PRIORITY_TIERS.lookup r.tier).getD tierReference,
        is_vip := false, vip_note := "" }
    | none =>
      { label := label, tier := 4, time_sensitive := false,
        tier_config := tierReference, is_vip := false, vip_note := "" }

/-- A one-entry VIP registry used in concrete statements: tier 1, no
label override. -/
def vipBoss : List (String × VIPSender) :=
  [("boss@corp.com",
    { pattern := "boss@corp\\.com", tier := 1, star := true,
      label_override := none, note := "Boss" })]

/-! ## Age-based escalation (`escalate_by_age`) -/

/-- Result of the escalation check (`EscalationResult` dataclass).
The Python dataclass also carries a diagnostic `reason` string built
with float formatting; it is not modelled. -/
structure EscalationResult where
  should_escalate : Bool
  original_tier : Int
  escalated_tier : Int
deriving Repr, DecidableEq

/-- `escalate_by_age(current_tier, email_age_hours, is_time_sensitive)`,
mirroring the source's ordered `if` chain, including the final
(unreachable) fallback return. -/
def escalate_by_age (current_tier : Int) (email_age_hours : ℚ)
    (is_time_sensitive : Bool) : EscalationResult :=
  if current_tier = 1 then
    { should_escalate := false, original_tier := 1, escalated_tier := 1 }
  else if email_age_hours < 24 then
    { should_escalate := false, original_tier := current_tier, escalated_tier := current_tier }
  else if 24 ≤ email_age_hours ∧ email_age_hours < 72 then
    if is_time_sensitive = true ∧ 3 ≤ current_tier then
      { should_escalate := true, original_tier := current_tier, escalated_tier := 2 }
    else
      { should_escalate := false, original_tier := current_tier, escalated_tier := current_tier }
  else if 72 ≤ email_age_hours then
    { should_escalate := true, original_tier := current_tier, escalated_tier := 1 }
  else
    { should_escalate := false, original_tier := current_tier, escalated_tier := current_tier }

/-! ## JSON values and the state file (`src/core/state.py`)

`json.dump` / `json.load` are modelled as exact on JSON values; the
state file holds either a parsed JSON object (an insertion-ordered
association list, like a Python dict) or nothing (absent or corrupt
file). -/

/-- A JSON value, restricted to the shapes the state record uses. -/
inductive Json where
  | null : Json
  | num (n : Int) : Json
  | str (s : String) : Json
  | obj (fields : List (String × Json)) : Json

/-- Python dict assignment `d[k] = v`: replaces the value of an existing
key in place (keeping its position), or appends a new key at the end. -/
def objSet (o : List (String × Json)) (k : String) (v : Json) : List (String × Json) :=
  if o.any (fun kv => kv.1 == k) then
    o.map (fun kv => if kv.1 = k then (k, v) else kv)
  else o ++ [(k, v)]

/-- A Python `Optional[str]` as a JSON value. -/
def encOptStr : Option String → Json
  | none => Json.null
  | some s => Json.str s

/-- `StateManager._default_state()`. -/
def default_state : List (String × Json) :=
  [("next_page_token", Json.null), ("total_processed", Json.num 0),
   ("history", Json.obj []), ("last_run", Json.null), ("provider", Json.null)]

/-- `StateManager._load()`: the parsed file when present and parseable,
otherwise the default state (parse failures are logged, not fatal). -/
def stateLoad (file : Option (List (String × Json))) : List (String × Json) :=
  match file with
  | some d => d
  | none => default_state

/-- The history dict as a JSON object (`dict(history)` before dumping). -/
def encHistory (history : List (String × Int)) : Json :=
  Json.obj (history.map (fun kv => (kv.1, Json.num kv.2)))

/-- `StateManager.save(page_token, processed_count, history, provider)`:
the state dict after the field assignments. `datetime.now().isoformat()`
is the `now` argument; `if provider:` is a Python truthiness test, so an
empty provider string is not stored either. -/
def stateSave (st : List (String × Json)) (page_token : Option String)
    (processed_count : Int) (history : List (String × Int))
    (provider : Option String) (now : String) : List (String × Json) :=
  let s1 := objSet st "next_page_token" (encOptStr page_token)
  let s2 := objSet s1 "total_processed" (Json.num processed_count)
  let s3 := objSet s2 "history" (encHistory history)
  let s4 := objSet s3 "last_run" (Json.str now)
  if provider.getD "" ≠ "" then objSet s4 "provider" (Json.str (provider.getD "")) else s4

/-- `StateManager.get_token()`. -/
def get_token (st : List (String × Json)) : Json :=
  (st.lookup "next_page_token").getD Json.null

/-- `StateManager.get_total()`. -/
def get_total (st : List (String × Json)) : Json :=
  (st.lookup "total_processed").getD (Json.num 0)

/-- `StateManager.get_history()` (before wrapping in `defaultdict`). -/
def get_history (st : List (String × Json)) : Json :=
  (st.lookup "history").getD (Json.obj [])

/-- Read back an `Optional[str]` field. -/
def decodeOptStr : Json → Option String
  | Json.str s => some s
  | _ => none

/-- Read back an integer field. -/
def decodeInt : Json → Int
  | Json.num n => n
  | _ => 0

/-- Read back a label histogram. -/
def decodeHistory : Json → List (String × Int)
  | Json.obj o => o.map (fun kv => (kv.1, decodeInt kv.2))
  | _ => []

/-- A snapshot of the state file's content as a concurrent reader could
observe it. -/
inductive FileSnap where
  | truncated : FileSnap
  | full (record : List (String × Json)) : FileSnap

/-- The sequence of file contents observable while `save` writes:
`open(self.filename, "w")` first truncates the file in place, then
`json.dump` writes the serialized record. There is no temporary file and
no rename. -/
def saveSnapshots (record : List (String × Json)) : List FileSnap :=
  [FileSnap.truncated, FileSnap.full record]

/-! ## Actions, processing results and the provider port
(`src/core/models.py`, `src/providers/base.py`)

Calls into a concrete backing store can raise; each port method is an
oracle function that threads an abstract provider state `σ` and returns
`Except String` (the exception's message). -/

/-- `LabelAction` dataclass. `due_date` (a `datetime`) is modelled as an
opaque string. -/
structure LabelAction where
  message_id : String
  add_labels : List String
  remove_labels : List String
  archive : Bool
  star : Bool
  target_folder : Option String
  category : Option String
  category_color : Option String
  due_date : Option String
deriving Repr, DecidableEq

/-- A fresh `LabelAction(message_id=msg_id)` with the dataclass
defaults. -/
def newAction (msg_id : String) : LabelAction :=
  { message_id := msg_id, add_labels := [], remove_labels := [],
    archive := false, star := false, target_folder := none,
    category := none, category_color := none, due_date := none }

/-- `ProcessingResult` dataclass. -/
structure ProcessingResult where
  processed_count : Nat
  success_count : Nat
  error_count : Nat
  label_counts : List (String × Int)
  errors : List String
deriving Repr, DecidableEq

/-- `ProcessingResult()` with the dataclass defaults. -/
def emptyResult : ProcessingResult :=
  { processed_count := 0, success_count := 0, error_count := 0,
    label_counts := [], errors := [] }

/-- `add_label_stat(label)`:
`label_counts[label] = label_counts.get(label, 0) + 1`, with dict
semantics (replace in place, or append a new key). -/
def add_label_stat (lc : List (String × Int)) (label : String) : List (String × Int) :=
  if lc.any (fun kv => kv.1 == label) then
    lc.map (fun kv => if kv.1 = label then (label, kv.2 + 1) else kv)
  else lc ++ [(label, 1)]

/-- The abstract backing-store port used by
`EmailProvider.apply_actions`: each method may mutate provider state and
may raise. -/
structure ProviderOracle (σ : Type) where
  ensure_label_exists : σ → String → σ × Except String String
  apply_label : σ → String → String → σ × Except String Bool
  remove_label : σ → String → String → σ × Except String Bool
  archiveMsg : σ → String → σ × Except String Bool
  starMsg : σ → String → σ × Except String Bool

/-- The `for label in action.add_labels:` loop of the `try` block:
ensure the label exists, apply it, and count a stat when `apply_label`
reports success; the first exception aborts the rest of the body. -/
def applyAddLabels {σ : Type} (P : ProviderOracle σ) (s : σ) (msg_id : String)
    (lc : List (String × Int)) : List String → (σ × List (String × Int)) × Except String Unit
  | [] => ((s, lc), Except.ok ())
  | l :: rest =>
    match P.ensure_label_exists s l with
    | (s', Except.error e) => ((s', lc), Except.error e)
    | (s', Except.ok _) =>
      match P.apply_label s' msg_id l with
      | (s'', Except.error e) => ((s'', lc), Except.error e)
      | (s'', Except.ok b) =>
        applyAddLabels P s'' msg_id (if b then add_label_stat lc l else lc) rest

/-- The `for label in action.remove_labels:` loop (results ignored). -/
def applyRemoveLabels {σ : Type} (P : ProviderOracle σ) (s : σ) (msg_id : String) :
    List String → σ × Except String Unit
  | [] => (s, Except.ok ())
  | l :: rest =>
    match P.remove_label s msg_id l with
    | (s', Except.error e) => (s', Except.error e)
    | (s', Except.ok _) => applyRemoveLabels P s' msg_id rest

/-- The whole `try` body of `apply_actions` for one action. -/
def applyOneAction {σ : Type} (P : ProviderOracle σ) (s : σ)
    (lc : List (String × Int)) (a : LabelAction) :
    (σ × List (String × Int)) × Except String Unit :=
  match applyAddLabels P s a.message_id lc a.add_labels with
  | ((s1, lc1), Except.error e) => ((s1, lc1), Except.error e)
  | ((s1, lc1), Except.ok _) =>
    match applyRemoveLabels P s1 a.message_id a.remove_labels with
    | (s2, Except.error e) => ((s2, lc1), Except.error e)
    | (s2, Except.ok _) =>
      match (if a.archive then P.archiveMsg s2 a.message_id else (s2, Except.ok true)) with
      | (s3, Except.error e) => ((s3, lc1), Except.error e)
      | (s3, Except.ok _) =>
        match (if a.star then P.starMsg s3 a.message_id else (s3, Except.ok true)) with
        | (s4, Except.error e) => ((s4, lc1), Except.error e)
        | (s4, Except.ok _) => ((s4, lc1), Except.ok ())

/-- The per-action loop of `EmailProvider.apply_actions`: a successful
body bumps `success_count`, an exception bumps `error_count` and records
the message, and `processed_count` is bumped either way. -/
def apply_actions_go {σ : Type} (P : ProviderOracle σ) (s : σ)
    (res : ProcessingResult) : List LabelAction → σ × ProcessingResult
  | [] => (s, res)
  | a :: rest =>
    match applyOneAction P s res.label_counts a with
    | ((s', lc'), Except.ok _) =>
      apply_actions_go P s'
        { res with label_counts := lc',
                   success_count := res.success_count + 1,
                   processed_count := res.processed_count + 1 } rest
    | ((s', lc'), Except.error e) =>
      apply_actions_go P s'
        { res with label_counts := lc',
                   error_count := res.error_count + 1,
                   errors := res.errors ++ [a.message_id ++ ": " ++ e],
                   processed_count := res.processed_count + 1 } rest

/-- `EmailProvider.apply_actions(actions)` (default sequential
implementation). -/
def apply_actions {σ : Type} (P : ProviderOracle σ) (s : σ)
    (actions : List LabelAction) : σ × ProcessingResult :=
  apply_actions_go P s emptyResult actions

/-! ## Legacy helpers used by the CLI loop (`src/core/rules.py`) -/

/-- `PRIORITY_LABELS` of `src/core/rules.py`. -/
def PRIORITY_LABELS : List String := ["Finance/Banking", "Tech/Security"]

/-- `KEEP_IN_INBOX` of `src/core/rules.py`. -/
def KEEP_IN_INBOX : List String :=
  ["Finance/Banking", "Tech/Security", "Personal", "Awaiting Reply"]

/-- `get_tier_for_label(label)`. -/
def get_tier_for_label (label : String) : Nat :=
  match LABEL_RULES.find? (fun r => r.label == label) with
  | some r => r.tier
  | none => 4

/-- `get_tier_config(tier)`. -/
def get_tier_config (tier : Nat) : PriorityTier :=
  (PRIORITY_TIERS.lookup tier).getD tierReference

/-- `should_star(label)`. -/
def should_star (label : String) : Bool :=
  PRIORITY_LABELS.contains label || (get_tier_config (get_tier_for_label label)).star

/-- `should_keep_in_inbox(label)`. -/
def should_keep_in_inbox (label : String) : Bool :=
  KEEP_IN_INBOX.contains label ||
    (get_tier_config (get_tier_for_label label)).keep_in_inbox

/-- `is_vip_sender(sender)` (explicit registry, see `check_vip_sender`). -/
def is_vip_sender (vips : List (String × VIPSender)) (sender : String) : Bool :=
  (check_vip_sender vips sender).isSome

/-! ## The CLI orchestration loop (`run_labeler` in `src/cli.py`)

Python exceptions are split into `KeyboardInterrupt` (not a subclass of
`Exception`, caught by its own handler) and ordinary exceptions. Calls
through the provider port are oracle functions that may raise; the loop
itself is embedded with explicit state threading and a fuel bound (the
Python `while` loop need not terminate for arbitrary providers). -/

/-- A raised Python error. -/
inductive PyErr where
  | keyboardInterrupt : PyErr
  | exn (msg : String) : PyErr
deriving Repr, DecidableEq

/-- `EmailMessage` dataclass (`date` as an opaque string). -/
structure EmailMessage where
  id : String
  sender : String
  subject : String
  date : Option String
  labels : List String
  is_read : Bool
  is_starred : Bool
  priority_tier : Option Nat
  categories : List String
deriving Repr, DecidableEq

/-- The object returned by `provider.list_messages`. -/
structure MessageList where
  messages : List EmailMessage
  next_page_token : Option String
deriving Repr, DecidableEq

/-- The members of the `ProviderCapabilities` Flag in
`src/providers/base.py` (`auto()` values 1, 2, 4, …), in declaration
order. The Flag defines no `CATEGORIES` member. -/
def PROVIDER_CAPABILITIES : List (String × Nat) :=
  [("NONE", 0), ("TRUE_LABELS", 1), ("FOLDERS", 2), ("STAR", 4), ("ARCHIVE", 8),
   ("BATCH_OPERATIONS", 16), ("SEARCH_QUERY", 32), ("GMAIL_EXTENSIONS", 64)]

/-- Attribute access `ProviderCapabilities.<name>`: the member's value,
or a raised `AttributeError` for an undefined member (Python's enum
classes raise on missing member access). -/
def providerCapabilitiesAttr (name : String) : Except String Nat :=
  match PROVIDER_CAPABILITIES.lookup name with
  | some v => Except.ok v
  | none => Except.error "AttributeError"

/-- The provider port as used by `run_labeler`: `name`, the
`capabilities` bitmask, listing, batch detail fetch (the
`hasattr(provider, 'batch_get_details')` fast path; the sequential
fallback builds the same id-to-message dict), and `apply_actions`. -/
structure CliProvider (σ : Type) where
  name : String
  capabilities : Nat
  list_messages : σ → String → Int → Option String → σ × Except PyErr MessageList
  batch_get_details : σ → List String → σ × Except PyErr (List (String × Option EmailMessage))
  applyActions : σ → List LabelAction → σ × Except PyErr ProcessingResult

/-- The arguments of `run_labeler` (plus the VIP registry and the
timestamp used by `StateManager.save`). `stateOn` is whether a
`state_file` was supplied. -/
structure CliConfig where
  query : String
  limit : Int
  dry_run : Bool
  remove_label : Option String
  stateOn : Bool
  tier_routing : Bool
  vip_only : Bool
  vips : List (String × VIPSender)
  now : String

/-- The action built for one categorized message (the body of the
`for msg_id, msg in details.items():` loop after classification).
Python truthiness: `if tier_config.folder:` and `if remove_label ...:`
treat `None` and `""` alike. -/
def buildAction (tier_routing has_categories : Bool) (remove_label : Option String)
    (msg_id : String) (cat : CategorizationResult) : LabelAction :=
  let a0 := newAction msg_id
  let a1 := { a0 with add_labels := a0.add_labels ++ [cat.label] }
  let a2 :=
    if tier_routing then
      let tc := cat.tier_config
      let b1 := if has_categories then
          { a1 with category := some tc.name, category_color := some tc.color }
        else a1
      let b2 := if (tc.folder.getD "") ≠ "" then { b1 with target_folder := tc.folder } else b1
      let b3 := if tc.star then { b2 with star := true } else b2
      if tc.keep_in_inbox = false then { b3 with archive := true } else b3
    else
      let b1 := if should_star cat.label then { a1 with star := true } else a1
      if should_keep_in_inbox cat.label = false then { b1 with archive := true } else b1
  if (remove_label.getD "") ≠ "" ∧ cat.label ≠ remove_label.getD "" then
    { a2 with remove_labels := a2.remove_labels ++ [remove_label.getD ""] }
  else a2

/-- One step of the classification loop over the fetched details:
skips missing messages and (in `vip_only` mode) non-VIP senders,
otherwise bumps `stats` and `result.label_counts` and appends the built
action. (`vip_count` and `non_vip_skipped` are log-only locals and are
not modelled.) -/
def classifyStep (cfg : CliConfig) (has_categories : Bool)
    (acc : List (String × Int) × List (String × Int) × List LabelAction)
    (d : String × Option EmailMessage) :
    List (String × Int) × List (String × Int) × List LabelAction :=
  match d.2 with
  | none => acc
  | some msg =>
    if cfg.vip_only = true ∧ is_vip_sender cfg.vips msg.sender = false then acc
    else
      let cat := categorize_with_tier cfg.vips msg.sender msg.subject
      (add_label_stat acc.1 cat.label,
       add_label_stat acc.2.1 cat.label,
       acc.2.2 ++ [buildAction cfg.tier_routing has_categories cfg.remove_label d.1 cat])

/-- The classification stage over a whole page. -/
def classifyPage (cfg : CliConfig) (has_categories : Bool)
    (details : List (String × Option EmailMessage))
    (stats lc : List (String × Int)) :
    List (String × Int) × List (String × Int) × List LabelAction :=
  details.foldl (classifyStep cfg has_categories) (stats, lc, [])

/-- The loop state of `run_labeler`: provider state, the in-memory
`StateManager` dict and the state file's content, plus the loop
variables. -/
structure CliRunState (σ : Type) where
  ps : σ
  sdict : List (String × Json)
  fileJ : Option (List (String × Json))
  page_token : Option String
  total_processed : Int
  stats : List (String × Int)
  processed_this_run : Int
  result : ProcessingResult

/-- `state.save(page_token, total_processed, stats, provider=provider.name)`
guarded by `if state:`. -/
def cliSave {σ : Type} (P : CliProvider σ) (cfg : CliConfig) (st : CliRunState σ) :
    CliRunState σ :=
  if cfg.stateOn then
    let d := stateSave st.sdict st.page_token st.total_processed st.stats (some P.name) cfg.now
    { st with sdict := d, fileJ := some d }
  else st

/-- How the `try` block of `run_labeler` was left. -/
inductive LoopExit where
  | finished : LoopExit
  | errored (e : PyErr) : LoopExit
  | fuel : LoopExit
deriving Repr, DecidableEq

/-- The `while processed_this_run < limit:` loop of `run_labeler`.
An oracle error aborts the loop (to be handled by the caller); page
results update stats, counters, cursor, and checkpoint before the
throttle, and `if not page_token: break` is a truthiness test.
`hasCat` is the function's `has_categories` local. -/
def cliRunLoop {σ : Type} (P : CliProvider σ) (cfg : CliConfig) (hasCat : Bool) :
    Nat → CliRunState σ → CliRunState σ × LoopExit
  | 0, st => (st, LoopExit.fuel)
  | n + 1, st =>
    if st.processed_this_run < cfg.limit then
      match P.list_messages st.ps cfg.query (min (cfg.limit - st.processed_this_run) 100)
          st.page_token with
      | (ps1, Except.error e) => ({ st with ps := ps1 }, LoopExit.errored e)
      | (ps1, Except.ok lr) =>
        if lr.messages.isEmpty then ({ st with ps := ps1 }, LoopExit.finished)
        else
          match P.batch_get_details ps1 (lr.messages.map (fun m => m.id)) with
          | (ps2, Except.error e) => ({ st with ps := ps2 }, LoopExit.errored e)
          | (ps2, Except.ok details) =>
            match classifyPage cfg hasCat details st.stats st.result.label_counts with
            | (stats1, lc1, actions) =>
              let res1 := { st.result with label_counts := lc1 }
              match (if actions ≠ [] ∧ cfg.dry_run = false then
                      match P.applyActions ps2 actions with
                      | (ps3, Except.error e) => (ps3, Except.error e)
                      | (ps3, Except.ok br) =>
                        (ps3, Except.ok { res1 with
                          success_count := res1.success_count + br.success_count,
                          error_count := res1.error_count + br.error_count,
                          errors := res1.errors ++ br.errors })
                    else (ps2, Except.ok { res1 with
                          success_count := res1.success_count + actions.length })) with
              | (ps3, Except.error e) =>
                ({ st with ps := ps3, stats := stats1, result := res1 }, LoopExit.errored e)
              | (ps3, Except.ok res2) =>
                let res3 := { res2 with processed_count := res2.processed_count + actions.length }
                let st1 : CliRunState σ :=
                  { st with
                    ps := ps3, stats := stats1, result := res3,
                    processed_this_run := st.processed_this_run + (actions.length : Int),
                    total_processed := st.total_processed + (actions.length : Int),
                    page_token := lr.next_page_token }
                let st2 := cliSave P cfg st1
                if (st2.page_token.getD "") = "" then (st2, LoopExit.finished)
                else cliRunLoop P cfg hasCat n st2
    else (st, LoopExit.finished)

/-- What `run_labeler` does after the `try` block. -/
inductive RunOutcome where
  | ok (r : ProcessingResult) : RunOutcome
  | raised (e : String) : RunOutcome
  | outOfFuel : RunOutcome
deriving Repr, DecidableEq

/-- The `try` block of `run_labeler` (cli.py lines 138-262) together
with its exception handling and return: a clean or `KeyboardInterrupt`
exit returns the result (after a checkpoint in the interrupt case),
while any other exception checkpoints and re-raises. -/
def run_labeler_try {σ : Type} (P : CliProvider σ) (cfg : CliConfig) (hasCat : Bool)
    (fuel : Nat) (st0 : CliRunState σ) : CliRunState σ × RunOutcome :=
  match cliRunLoop P cfg hasCat fuel st0 with
  | (st, LoopExit.finished) =>
    let res := { st.result with label_counts := st.stats }
    ({ st with result := res }, RunOutcome.ok res)
  | (st, LoopExit.fuel) => (st, RunOutcome.outOfFuel)
  | (st, LoopExit.errored PyErr.keyboardInterrupt) =>
    let st1 := cliSave P cfg st
    let res := { st1.result with label_counts := st1.stats }
    ({ st1 with result := res }, RunOutcome.ok res)
  | (st, LoopExit.errored (PyErr.exn e)) =>
    (cliSave P cfg st, RunOutcome.raised e)

/-- The loop state at entry to `run_labeler`: the `StateManager` is
constructed from the state file and seeds cursor, total and histogram
(`{}` defaults when no state file is configured; the dict is still
modelled but unused then). -/
def cliInit {σ : Type} (ps : σ) (cfg : CliConfig)
    (file : Option (List (String × Json))) : CliRunState σ :=
  let sdict := stateLoad file
  { ps := ps, sdict := sdict, fileJ := file,
    page_token := if cfg.stateOn then decodeOptStr (get_token sdict) else none,
    total_processed := if cfg.stateOn then decodeInt (get_total sdict) else 0,
    stats := if cfg.stateOn then decodeHistory (get_history sdict) else [],
    processed_this_run := 0, result := emptyResult }

/-- `run_labeler(provider, query, limit, dry_run, remove_label,
state_file, tier_routing, vip_only)` from its first statement on. Line
123, `has_categories = provider.capabilities & ProviderCapabilities.CATEGORIES`,
accesses an undefined Flag member and therefore raises `AttributeError`
before the state manager is constructed or the `try` block is entered;
were the member defined with some value `v`, the rest of the function
would be `run_labeler_try` with `has_categories` the truthiness of the
masked bits. -/
def run_labeler {σ : Type} (P : CliProvider σ) (cfg : CliConfig) (fuel : Nat)
    (file : Option (List (String × Json))) (ps : σ) :
    Option (List (String × Json)) × RunOutcome :=
  match providerCapabilitiesAttr "CATEGORIES" with
  | Except.error e => (file, RunOutcome.raised e)
  | Except.ok v =>
    let hasCat := decide ((P.capabilities &&& v) ≠ 0)
    let r := run_labeler_try P cfg hasCat fuel (cliInit ps cfg file)
    (r.1.fileJ, r.2)

/-! ## The legacy Gmail loop (`GmailLabeler.run` in `src/gmail_labeler.py`)

The legacy labeler has its own `StateManager` (fields `next_page_token`,
`total_processed`, `history` only). Its `run` loop lists pages through
`_execute_with_backoff` and hands each non-empty page to
`self.process_batch`; since no claim depends on `process_batch`'s
internals (and it is never invoked when the first page is empty), it is
passed as a function of (service state, message ids, current stats)
returning the updated stats and the processed count, and may raise. -/

/-- The legacy `StateManager`'s default state
(`{"next_page_token": None, "total_processed": 0, "history": {}}`). -/
def gl_default_state : List (String × Json) :=
  [("next_page_token", Json.null), ("total_processed", Json.num 0),
   ("history", Json.obj [])]

/-- Legacy `StateManager._load`. -/
def glStateLoad (file : Option (List (String × Json))) : List (String × Json) :=
  file.getD gl_default_state

/-- Legacy `StateManager.save(page_token, processed_count, history)`. -/
def glStateSave (st : List (String × Json)) (page_token : Option String)
    (processed_count : Int) (history : List (String × Int)) : List (String × Json) :=
  objSet (objSet (objSet st "next_page_token" (encOptStr page_token))
    "total_processed" (Json.num processed_count)) "history" (encHistory history)

/-- The Gmail API surface `run` itself touches: one page listing
(already wrapped in `_execute_with_backoff`; exhausted retries surface
as a raised error). Returns message ids and the next page token. -/
structure GmailService (σ : Type) where
  listMessages : σ → String → Option String → σ × Except PyErr (List String × Option String)

/-- The loop state of `GmailLabeler.run`. -/
structure GLState (σ : Type) where
  ps : σ
  sdict : List (String × Json)
  fileJ : Option (List (String × Json))
  page_token : Option String
  total_processed : Int
  stats : List (String × Int)

/-- How `GmailLabeler.run` ended. -/
inductive GLExit where
  | finished : GLExit
  | interrupted : GLExit
  | fatal (e : String) : GLExit
  | fuel : GLExit
deriving Repr, DecidableEq

/-- `self.state_manager.save(page_token, self.total_processed, self.stats)`
with the current loop variables. -/
def glSaveNow {σ : Type} (st : GLState σ) : GLState σ :=
  let d := glStateSave st.sdict st.page_token st.total_processed st.stats
  { st with sdict := d, fileJ := some d }

/-- Both exception handlers of `run`: save the current state; neither
re-raises. -/
def glHandle {σ : Type} (st : GLState σ) (e : PyErr) : GLState σ × GLExit :=
  match e with
  | PyErr.keyboardInterrupt => (glSaveNow st, GLExit.interrupted)
  | PyErr.exn m => (glSaveNow st, GLExit.fatal m)

/-- The `while True:` loop of `GmailLabeler.run`: list a page; an empty
page ends the run (saving a cleared cursor for the default query);
otherwise process the batch, bump the total, advance the cursor,
checkpoint (default query only), and stop on a missing next token
(`if not page_token:` is a truthiness test). -/
def glRunLoop {σ : Type} (S : GmailService σ)
    (process_batch : σ → List String → List (String × Int) →
      σ × Except PyErr (List (String × Int) × Int))
    (query : String) : Nat → GLState σ → GLState σ × GLExit
  | 0, st => (st, GLExit.fuel)
  | n + 1, st =>
    match S.listMessages st.ps query st.page_token with
    | (ps1, Except.error e) => glHandle { st with ps := ps1 } e
    | (ps1, Except.ok (msgs, nextTok)) =>
      if msgs.isEmpty then
        if query = "has:nouserlabels" then
          let d := glStateSave st.sdict none st.total_processed st.stats
          ({ st with ps := ps1, sdict := d, fileJ := some d }, GLExit.finished)
        else ({ st with ps := ps1 }, GLExit.finished)
      else
        match process_batch ps1 msgs st.stats with
        | (ps2, Except.error e) => glHandle { st with ps := ps2 } e
        | (ps2, Except.ok (stats1, count)) =>
          let st1 : GLState σ :=
            { st with
              ps := ps2, stats := stats1,
              total_processed := st.total_processed + count,
              page_token := nextTok }
          let st2 := if query = "has:nouserlabels" then glSaveNow st1 else st1
          if (st2.page_token.getD "") = "" then (st2, GLExit.finished)
          else glRunLoop S process_batch query n st2

/-- `GmailLabeler.run(query)`: state is loaded at construction time
(total and stats always; the cursor only for the default query), then
the loop runs. -/
def glRun {σ : Type} (S : GmailService σ)
    (process_batch : σ → List String → List (String × Int) →
      σ × Except PyErr (List (String × Int) × Int))
    (query : String) (fuel : Nat) (file : Option (List (String × Json)))
    (ps : σ) : GLState σ × GLExit :=
  let sdict := glStateLoad file
  glRunLoop S process_batch query fuel
    { ps := ps, sdict := sdict, fileJ := file,
      page_token := if query = "has:nouserlabels" then decodeOptStr (get_token sdict) else none,
      total_processed := decodeInt (get_total sdict),
      stats := decodeHistory (get_history sdict) }

/-! ## Concrete fixtures for closed statements -/

/-- A concrete message whose sender matches the `Dev/GitHub` rule. -/
def demoMessage : EmailMessage :=
  { id := "m1", sender := "dev@github.com", subject := "hello", date := none,
    labels := [], is_read := false, is_starred := false,
    priority_tier := none, categories := [] }

/-- A provider whose mutation call raises: one non-empty page, details
for every id, and `apply_actions` failing with `"boom"`. -/
def demoProvider : CliProvider Unit :=
  { name := "gmail", capabilities := 1,
    list_messages := fun s _q _l _t =>
      (s, Except.ok { messages := [demoMessage], next_page_token := none }),
    batch_get_details := fun s ids =>
      (s, Except.ok (ids.map (fun i => (i, some demoMessage)))),
    applyActions := fun s _a => (s, Except.error (PyErr.exn "boom")) }

/-- A CLI configuration with a state file and the default flags. -/
def demoCfg : CliConfig :=
  { query := "has:nouserlabels", limit := 10, dry_run := false,
    remove_label := none, stateOn := true, tier_routing := false,
    vip_only := false, vips := [], now := "2026-01-01T00:00:00" }

/-- The initial loop state for a fresh run (no state file on disk). -/
def demoSt0 : CliRunState Unit := cliInit () demoCfg none

/-- A Gmail service whose first page listing is empty. -/
def glDemoService : GmailService Unit :=
  { listMessages := fun s _q _t => (s, Except.ok ([], none)) }

/-- A trivial batch processor (never reached in the empty-page
scenario). -/
def glDemoPB : Unit → List String → List (String × Int) →
    Unit × Except PyErr (List (String × Int) × Int) :=
  fun s _ _ => (s, Except.ok ([], 0))

/-- Placeholder rule used as the default of `List.getD` in closed
statements about concrete table entries. -/
def defaultRule : Rule :=
  { label := "", patterns := [], priority := 0, tier := 0, time_sensitive := false }

/-- The catch-all entry of `LABEL_RULES` (`"Misc/Other"`, priority 999,
pattern `.*`). -/
def catchAllRule : Rule :=
  { label := "Misc/Other", patterns := [".*"], priority := 999, tier := 4,
    time_sensitive := false }

end Mail

namespace Mail

theorem scenarioB_check :
    categorize_from_strings "alerts@chase.com" "Your statement is ready" = "Finance/Banking" := by
  decide

theorem flatMap_pure (l : List (List Char)) : (l.flatMap fun t => [t]) = l := by
  induction l with
  | nil => rfl
  | cons a l ih => simp [List.flatMap_cons, ih]

theorem nlSuffixes_ne_nil (s : List Char) : nlSuffixes s ≠ [] := by
  cases s <;> simp [nlSuffixes]

theorem consume_catchall (s : List Char) : consume (compile ".*") s = nlSuffixes s := by
  show (nlSuffixes s).flatMap (fun t => [t]) = nlSuffixes s
  exact flatMap_pure _

/-- The catch-all pattern `.*` matches every text. -/
theorem catchall_matches (s : List Char) : searchB (compile ".*") s = true := by
  have hne : (consume (compile ".*") s).isEmpty = false := by
    rw [consume_catchall]
    cases s with
    | nil => rfl
    | cons c cs => simp [nlSuffixes]
  cases s with
  | nil => simp [searchB, allSuffixes, hne]
  | cons c cs => simp [searchB, allSuffixes, hne]

theorem catchAllRule_matches (text : List Char) : ruleMatches catchAllRule text = true := by
  simp [ruleMatches, catchAllRule, catchall_matches]

theorem catchAllRule_mem : catchAllRule ∈ LABEL_RULES := by decide

/-- Invariant of `_find_best_label`'s scan: starting from accumulator
`acc`, the fold either returns `acc` unchanged (and then no scanned rule
matches with a priority below `acc`'s), or it returns the (label,
priority) of a matching scanned rule whose priority is below `acc`'s and
minimal among all matching scanned rules. -/
theorem findBest_fold_spec (text : List Char) :
    ∀ (rules : List Rule) (acc : Option String × Nat),
      (List.foldl (stepRule text) acc rules = acc ∧
        ∀ r ∈ rules, ruleMatches r text = true → acc.2 ≤ r.priority) ∨
      (∃ r, r ∈ rules ∧ ruleMatches r text = true ∧
        List.foldl (stepRule text) acc rules = (some r.label, r.priority) ∧
        r.priority < acc.2 ∧
        ∀ r' ∈ rules, ruleMatches r' text = true → r.priority ≤ r'.priority) := by
  intro rules
  induction rules with
  | nil => exact fun acc => Or.inl ⟨rfl, by simp⟩
  | cons r rs ih =>
    intro acc
    by_cases hc : ruleMatches r text = true ∧ r.priority < acc.2
    · have hstep : stepRule text acc r = (some r.label, r.priority) := by
        simp [stepRule, hc]
      rcases ih (some r.label, r.priority) with ⟨heq, hmin⟩ | ⟨m, hmem, hmm, heq, hlt, hmin⟩
      · refine Or.inr ⟨r, List.mem_cons_self r rs, hc.1, ?_, hc.2, ?_⟩
        · simpa [List.foldl_cons, hstep] using heq
        · intro r' hr' hm'
          rcases List.mem_cons.1 hr' with h | h
          · subst h; exact le_refl _
          · exact hmin r' h hm'
      · refine Or.inr ⟨m, List.mem_cons_of_mem r hmem, hmm, ?_, lt_trans hlt hc.2, ?_⟩
        · simpa [List.foldl_cons, hstep] using heq
        · intro r' hr' hm'
          rcases List.mem_cons.1 hr' with h | h
          · subst h; exact le_of_lt hlt
          · exact hmin r' h hm'
    · have hstep : stepRule text acc r = acc := by
        simp only [stepRule, if_neg hc]
      have hskip : ruleMatches r text = true → acc.2 ≤ r.priority := by
        intro hm'
        by_contra hlt'
        push_neg at hlt'
        exact hc ⟨hm', hlt'⟩
      rcases ih acc with ⟨heq, hmin⟩ | ⟨m, hmem, hmm, heq, hlt, hmin⟩
      · refine Or.inl ⟨?_, ?_⟩
        · simpa [List.foldl_cons, hstep] using heq
        · intro r' hr' hm'
          rcases List.mem_cons.1 hr' with h | h
          · subst h; exact hskip hm'
          · exact hmin r' h hm'
      · refine Or.inr ⟨m, List.mem_cons_of_mem r hmem, hmm, ?_, hlt, ?_⟩
        · simpa [List.foldl_cons, hstep] using heq
        · intro r' hr' hm'
          rcases List.mem_cons.1 hr' with h | h
          · subst h; exact le_of_lt (lt_of_lt_of_le hlt (hskip hm'))
          · exact hmin r' h hm'

/-- If some rule with priority below the `9999` sentinel matches, the
classifier returns the label of a matching rule of globally minimal
priority. -/
theorem findBestLabel_min (rules : List Rule) (text : List Char) (r : Rule)
    (hr : r ∈ rules) (hm : ruleMatches r text = true) (h9 : r.priority < 9999) :
    ∃ m, m ∈ rules ∧ ruleMatches m text = true ∧
      findBestLabel rules text = m.label ∧
      ∀ r' ∈ rules, ruleMatches r' text = true → m.priority ≤ r'.priority := by
  rcases findBest_fold_spec text rules (none, 9999) with ⟨_, hmin⟩ | ⟨m, hmem, hmm, heq, _, hmin⟩
  · have : (9999 : Nat) ≤ r.priority := hmin r hr hm
    omega
  · exact ⟨m, hmem, hmm, by simp [findBestLabel, findBest, heq], hmin⟩

end Mail

/-- C1 counterexample: rule A = `"Dev/Code-Review"` (priority 2) and rule
B = `"Dev/Infrastructure"` (priority 3) both match the combined text for
sender `"notifications@github.com"`, subject `"coderabb cloudflare"`, and
A's priority is strictly lower than B's, yet the classifier does not
return A's label (the `"Dev/GitHub"` rule at priority 1 also matches and
wins). -/
theorem claim_C1_counterexample :
    (Mail.LABEL_RULES.getD 1 Mail.defaultRule ∈ Mail.LABEL_RULES) ∧
    (Mail.LABEL_RULES.getD 2 Mail.defaultRule ∈ Mail.LABEL_RULES) ∧
    Mail.ruleMatches (Mail.LABEL_RULES.getD 1 Mail.defaultRule)
      (Mail.combined "notifications@github.com" "coderabb cloudflare") = true ∧
    Mail.ruleMatches (Mail.LABEL_RULES.getD 2 Mail.defaultRule)
      (Mail.combined "notifications@github.com" "coderabb cloudflare") = true ∧
    (Mail.LABEL_RULES.getD 1 Mail.defaultRule).priority <
      (Mail.LABEL_RULES.getD 2 Mail.defaultRule).priority ∧
    Mail.categorize_from_strings "notifications@github.com" "coderabb cloudflare" ≠
      (Mail.LABEL_RULES.getD 1 Mail.defaultRule).label := by
  decide

/-- C1 (amended): for every rule table (hence regardless of declaration
order), if rules A and B both match and A's priority number is strictly
lower than B's, then the classifier returns the label of a matching rule
whose priority is at most A's (the globally minimal matching priority);
in particular it never returns B's label. It returns A's label itself
exactly when A's priority is minimal among all matching rules. -/
theorem claim_C1_amended (rules : List Mail.Rule) (text : List Char) (A B : Mail.Rule)
    (hA : A ∈ rules) (hB : B ∈ rules)
    (hmA : Mail.ruleMatches A text = true) (hmB : Mail.ruleMatches B text = true)
    (hAB : A.priority < B.priority) (hA9 : A.priority < 9999)
    (hnd : (rules.map Mail.Rule.label).Nodup) :
    (∃ m, m ∈ rules ∧ Mail.ruleMatches m text = true ∧ m.priority ≤ A.priority ∧
      Mail.findBestLabel rules text = m.label) ∧
    Mail.findBestLabel rules text ≠ B.label := by
  obtain ⟨m, hmem, hmm, heq, hmin⟩ := Mail.findBestLabel_min rules text A hA hmA hA9
  refine ⟨⟨m, hmem, hmm, hmin A hA hmA, heq⟩, ?_⟩
  rw [heq]
  intro hlbl
  have hmB' : m = B := List.inj_on_of_nodup_map hnd hmem hB hlbl
  subst hmB'
  have : m.priority ≤ A.priority := hmin A hA hmA
  omega

/-- C1 amended claim instantiated at the table of `src/core/rules.py` and
spec Scenario B's input: `"Finance/Banking"` (priority 7) and
`"Finance/Payments"` (priority 8) both match, and the classifier avoids
the higher-numbered rule's label. -/
theorem claim_C1_amended_witness :
    (∃ m, m ∈ Mail.LABEL_RULES ∧
      Mail.ruleMatches m (Mail.combined "alerts@chase.com" "Your statement is ready") = true ∧
      m.priority ≤ (Mail.LABEL_RULES.getD 7 Mail.defaultRule).priority ∧
      Mail.findBestLabel Mail.LABEL_RULES
        (Mail.combined "alerts@chase.com" "Your statement is ready") = m.label) ∧
    Mail.findBestLabel Mail.LABEL_RULES
      (Mail.combined "alerts@chase.com" "Your statement is ready") ≠
      (Mail.LABEL_RULES.getD 8 Mail.defaultRule).label :=
  claim_C1_amended Mail.LABEL_RULES
    (Mail.combined "alerts@chase.com" "Your statement is ready")
    (Mail.LABEL_RULES.getD 7 Mail.defaultRule) (Mail.LABEL_RULES.getD 8 Mail.defaultRule)
    (by decide) (by decide) (by decide) (by decide) (by decide) (by decide) (by decide)

/-- C2: classification is total — for every (sender, subject) pair it
returns a label that is a key of the taxonomy, and when no rule other
than the catch-all matches, it returns `"Misc/Other"`. -/
theorem claim_C2 (sender subject : String) :
    Mail.categorize_from_strings sender subject ∈ Mail.LABEL_RULES.map Mail.Rule.label ∧
    ((∀ r ∈ Mail.LABEL_RULES, r.label ≠ "Misc/Other" →
        Mail.ruleMatches r (Mail.combined sender subject) = false) →
      Mail.categorize_from_strings sender subject = "Misc/Other") := by
  obtain ⟨m, hmem, hmm, heq, hmin⟩ :=
    Mail.findBestLabel_min Mail.LABEL_RULES (Mail.combined sender subject)
      Mail.catchAllRule Mail.catchAllRule_mem
      (Mail.catchAllRule_matches (Mail.combined sender subject)) (by decide)
  constructor
  · rw [show Mail.categorize_from_strings sender subject =
        Mail.findBestLabel Mail.LABEL_RULES (Mail.combined sender subject) from rfl, heq]
    exact List.mem_map_of_mem Mail.Rule.label hmem
  · intro hno
    rw [show Mail.categorize_from_strings sender subject =
        Mail.findBestLabel Mail.LABEL_RULES (Mail.combined sender subject) from rfl, heq]
    by_contra hne
    have : Mail.ruleMatches m (Mail.combined sender subject) = false := hno m hmem hne
    rw [this] at hmm
    exact Bool.false_ne_true hmm

/-- C2 witness: a sender/subject pair matched by no rule but the
catch-all is classified `"Misc/Other"`, a key of the taxonomy. -/
theorem claim_C2_witness :
    Mail.categorize_from_strings "zzz@zzz.zzz" "qqq" ∈
      Mail.LABEL_RULES.map Mail.Rule.label ∧
    Mail.categorize_from_strings "zzz@zzz.zzz" "qqq" = "Misc/Other" :=
  ⟨(claim_C2 "zzz@zzz.zzz" "qqq").1, (claim_C2 "zzz@zzz.zzz" "qqq").2 (by decide)⟩

/-- C3 (the code contradicts the spec's and its own comment's intent):
with a VIP registry entry of tier 1 and no label override matching the
sender, `categorize_with_tier` does force the VIP tier (1, where plain
classification would give tier 2) and takes the label from the normal
classifier, but the result is NOT marked time-sensitive — the code reads
`time_sensitive` from the classified label's rule (here `"Dev/GitHub"`,
`time_sensitive = False`), despite the adjacent comment "VIP is
time-sensitive". -/
theorem claim_C3_bug :
    Mail.categorize_with_tier Mail.vipBoss "boss@corp.com" "github.com" =
      { label := "Dev/GitHub", tier := 1, time_sensitive := false,
        tier_config := Mail.tierCritical, is_vip := true, vip_note := "Boss" } ∧
    (Mail.categorize_with_tier [] "boss@corp.com" "github.com").tier = 2 ∧
    (Mail.categorize_with_tier [] "boss@corp.com" "github.com").label = "Dev/GitHub" := by
  decide

/-- C4: the escalator implements the spec's ordered decision list —
tier 1 never escalates; under 24 hours nothing escalates; between 24 and
72 hours it escalates to tier 2 exactly when the message is
time-sensitive and the tier is at least 3; from 72 hours on it escalates
to tier 1; and the two spec scenarios C and D evaluate as stated. -/
theorem claim_C4 (t : Int) (a : ℚ) (ts : Bool) (h1 : 1 ≤ t) (h4 : t ≤ 4) :
    (t = 1 → Mail.escalate_by_age t a ts =
      { should_escalate := false, original_tier := 1, escalated_tier := 1 }) ∧
    (t ≠ 1 → a < 24 → Mail.escalate_by_age t a ts =
      { should_escalate := false, original_tier := t, escalated_tier := t }) ∧
    (t ≠ 1 → 24 ≤ a → a < 72 → Mail.escalate_by_age t a ts =
      (if ts = true ∧ 3 ≤ t then
        { should_escalate := true, original_tier := t, escalated_tier := 2 }
      else
        { should_escalate := false, original_tier := t, escalated_tier := t })) ∧
    (t ≠ 1 → 72 ≤ a → Mail.escalate_by_age t a ts =
      { should_escalate := true, original_tier := t, escalated_tier := 1 }) ∧
    Mail.escalate_by_age 3 30 true =
      { should_escalate := true, original_tier := 3, escalated_tier := 2 } ∧
    Mail.escalate_by_age 2 80 false =
      { should_escalate := true, original_tier := 2, escalated_tier := 1 } := by
  refine ⟨?_, ?_, ?_, ?_, by decide, by decide⟩
  · intro h; simp [Mail.escalate_by_age, h]
  · intro h hlt; rw [Mail.escalate_by_age, if_neg h, if_pos hlt]
  · intro h h24 h72
    rw [Mail.escalate_by_age, if_neg h, if_neg (not_lt.mpr h24), if_pos ⟨h24, h72⟩]
  · intro h h72
    rw [Mail.escalate_by_age, if_neg h, if_neg (not_lt.mpr (by linarith)),
      if_neg (fun hc => absurd hc.2 (not_lt.mpr h72)), if_pos h72]

/-- C4 witness: spec Scenario C (`escalate(3, 30, True)`), with the
tier-domain hypotheses discharged at `current_tier = 3`. -/
theorem claim_C4_witness :
    ((3 : Int) ≠ 1 → (24 : ℚ) ≤ 30 → (30 : ℚ) < 72 → Mail.escalate_by_age 3 30 true =
      (if (true = true ∧ (3 : Int) ≤ 3) then
        { should_escalate := true, original_tier := 3, escalated_tier := 2 }
      else
        { should_escalate := false, original_tier := 3, escalated_tier := 3 })) ∧
    Mail.escalate_by_age 3 30 true =
      { should_escalate := true, original_tier := 3, escalated_tier := 2 } :=
  ⟨(claim_C4 3 30 true (by decide) (by decide)).2.2.1,
   (claim_C4 3 30 true (by decide) (by decide)).2.2.2.2.1⟩

/-- C5: for every tier in the declared 1..4 domain, every age and every
time-sensitivity flag, the escalated tier never exceeds the original
tier, and a tier-1 input always yields no escalation with tier 1. -/
theorem claim_C5 (t : Int) (a : ℚ) (ts : Bool) (h1 : 1 ≤ t) (h4 : t ≤ 4) :
    (Mail.escalate_by_age t a ts).escalated_tier ≤
      (Mail.escalate_by_age t a ts).original_tier ∧
    (t = 1 → (Mail.escalate_by_age t a ts).should_escalate = false ∧
      (Mail.escalate_by_age t a ts).escalated_tier = 1) := by
  unfold Mail.escalate_by_age
  split_ifs with hc1 hc2 hc3 hc4 hc5 <;> simp_all <;> omega

/-- C5 witness: monotonicity and the tier-1 clause evaluated at
`escalate(1, 80, False)`. -/
theorem claim_C5_witness :
    ((Mail.escalate_by_age 1 80 false).escalated_tier ≤
      (Mail.escalate_by_age 1 80 false).original_tier ∧
    ((1 : Int) = 1 → (Mail.escalate_by_age 1 80 false).should_escalate = false ∧
      (Mail.escalate_by_age 1 80 false).escalated_tier = 1)) :=
  claim_C5 1 80 false (by decide) (by decide)

namespace Mail

theorem lookup_map_set (o : List (String × Json)) (k : String) (v : Json)
    (h : o.any (fun kv => kv.1 == k) = true) :
    (o.map (fun kv => if kv.1 = k then (k, v) else kv)).lookup k = some v := by
  induction o with
  | nil => simp at h
  | cons kv o ih =>
    obtain ⟨a, b⟩ := kv
    by_cases ha : a = k
    · subst ha
      simp only [List.map_cons, if_pos rfl]
      simp [List.lookup]
    · have h' : o.any (fun kv => kv.1 == k) = true := by
        simpa [List.any_cons, ha] using h
      have hk : (k == a) = false := beq_eq_false_iff_ne.mpr (fun he => ha he.symm)
      simp only [List.map_cons, if_neg ha]
      simpa [List.lookup, hk] using ih h'

theorem lookup_map_ne (o : List (String × Json)) (k k' : String) (v : Json)
    (h : k ≠ k') :
    (o.map (fun kv => if kv.1 = k' then (k', v) else kv)).lookup k = o.lookup k := by
  induction o with
  | nil => rfl
  | cons kv o ih =>
    obtain ⟨a, b⟩ := kv
    by_cases ha : a = k'
    · subst ha
      have hk : (k == a) = false := beq_eq_false_iff_ne.mpr h
      simp only [List.map_cons, if_pos rfl]
      simp [List.lookup, hk, ih]
    · simp only [List.map_cons, if_neg ha]
      by_cases hak : k = a
      · subst hak
        simp [List.lookup]
      · have hk : (k == a) = false := beq_eq_false_iff_ne.mpr hak
        simp [List.lookup, hk, ih]

theorem lookup_none_of_any_false (o : List (String × Json)) (k : String)
    (h : o.any (fun kv => kv.1 == k) = false) : o.lookup k = none := by
  induction o with
  | nil => rfl
  | cons kv o ih =>
    obtain ⟨a, b⟩ := kv
    simp only [List.any_cons, Bool.or_eq_false_iff] at h
    have hk : (k == a) = false := by
      simp only [beq_eq_false_iff_ne] at h ⊢
      exact fun he => h.1 he.symm
    simp [List.lookup, hk, ih h.2]

theorem lookup_append_single (o : List (String × Json)) (k : String) (v : Json)
    (h : o.lookup k = none) : (o ++ [(k, v)]).lookup k = some v := by
  induction o with
  | nil => simp [List.lookup]
  | cons kv o ih =>
    obtain ⟨a, b⟩ := kv
    by_cases hak : k = a
    · subst hak; simp [List.lookup] at h
    · have hk : (k == a) = false := by simpa [beq_eq_false_iff_ne] using hak
      simp only [List.lookup, hk] at h
      simpa [List.lookup, hk] using ih h

theorem lookup_append_single_ne (o : List (String × Json)) (k k' : String) (v : Json)
    (h : k ≠ k') : (o ++ [(k', v)]).lookup k = o.lookup k := by
  induction o with
  | nil => simp [List.lookup, beq_eq_false_iff_ne.mpr h]
  | cons kv o ih =>
    obtain ⟨a, b⟩ := kv
    by_cases hak : k = a
    · subst hak; simp [List.lookup]
    · have hk : (k == a) = false := by simpa [beq_eq_false_iff_ne] using hak
      simp [List.lookup, hk, ih]

theorem lookup_objSet_self (o : List (String × Json)) (k : String) (v : Json) :
    (objSet o k v).lookup k = some v := by
  unfold objSet
  by_cases hg : o.any (fun kv => kv.1 == k) = true
  · rw [if_pos hg]; exact lookup_map_set o k v hg
  · rw [if_neg hg]
    exact lookup_append_single o k v
      (lookup_none_of_any_false o k (Bool.not_eq_true _ ▸ hg))

theorem lookup_objSet_ne (o : List (String × Json)) (k k' : String) (v : Json)
    (h : k ≠ k') : (objSet o k' v).lookup k = o.lookup k := by
  unfold objSet
  by_cases hg : o.any (fun kv => kv.1 == k') = true
  · rw [if_pos hg]; exact lookup_map_ne o k k' v h
  · rw [if_neg hg]; exact lookup_append_single_ne o k k' v h

theorem stateSave_token (st : List (String × Json)) (cursor : Option String)
    (total : Int) (hist : List (String × Int)) (provider : Option String)
    (now : String) :
    get_token (stateSave st cursor total hist provider now) = encOptStr cursor := by
  unfold stateSave get_token
  by_cases hp : provider.getD "" ≠ ""
  · rw [if_pos hp, lookup_objSet_ne _ _ _ _ (by decide),
      lookup_objSet_ne _ _ _ _ (by decide), lookup_objSet_ne _ _ _ _ (by decide),
      lookup_objSet_ne _ _ _ _ (by decide), lookup_objSet_self]
    rfl
  · rw [if_neg hp, lookup_objSet_ne _ _ _ _ (by decide),
      lookup_objSet_ne _ _ _ _ (by decide), lookup_objSet_ne _ _ _ _ (by decide),
      lookup_objSet_self]
    rfl

theorem stateSave_total (st : List (String × Json)) (cursor : Option String)
    (total : Int) (hist : List (String × Int)) (provider : Option String)
    (now : String) :
    get_total (stateSave st cursor total hist provider now) = Json.num total := by
  unfold stateSave get_total
  by_cases hp : provider.getD "" ≠ ""
  · rw [if_pos hp, lookup_objSet_ne _ _ _ _ (by decide),
      lookup_objSet_ne _ _ _ _ (by decide), lookup_objSet_ne _ _ _ _ (by decide),
      lookup_objSet_self]
    rfl
  · rw [if_neg hp, lookup_objSet_ne _ _ _ _ (by decide),
      lookup_objSet_ne _ _ _ _ (by decide), lookup_objSet_self]
    rfl

theorem stateSave_history (st : List (String × Json)) (cursor : Option String)
    (total : Int) (hist : List (String × Int)) (provider : Option String)
    (now : String) :
    get_history (stateSave st cursor total hist provider now) = encHistory hist := by
  unfold stateSave get_history
  by_cases hp : provider.getD "" ≠ ""
  · rw [if_pos hp, lookup_objSet_ne _ _ _ _ (by decide),
      lookup_objSet_ne _ _ _ _ (by decide), lookup_objSet_self]
    rfl
  · rw [if_neg hp, lookup_objSet_ne _ _ _ _ (by decide), lookup_objSet_self]
    rfl

theorem decode_encOptStr (x : Option String) : decodeOptStr (encOptStr x) = x := by
  cases x <;> rfl

theorem decode_encHistory (h : List (String × Int)) :
    decodeHistory (encHistory h) = h := by
  induction h with
  | nil => rfl
  | cons kv t ih =>
    obtain ⟨a, b⟩ := kv
    simpa [decodeHistory, encHistory, decodeInt] using ih

end Mail

/-- C6: saving `(cursor, total, histogram)` and loading the same file
back yields a record whose cursor, total and histogram are identical to
the saved values. -/
theorem claim_C6 (st : List (String × Mail.Json)) (cursor : Option String)
    (total : Int) (hist : List (String × Int)) (provider : Option String)
    (now : String) (htotal : 0 ≤ total) :
    Mail.decodeOptStr (Mail.get_token
      (Mail.stateLoad (some (Mail.stateSave st cursor total hist provider now)))) = cursor ∧
    Mail.decodeInt (Mail.get_total
      (Mail.stateLoad (some (Mail.stateSave st cursor total hist provider now)))) = total ∧
    Mail.decodeHistory (Mail.get_history
      (Mail.stateLoad (some (Mail.stateSave st cursor total hist provider now)))) = hist := by
  refine ⟨?_, ?_, ?_⟩
  · show Mail.decodeOptStr (Mail.get_token (Mail.stateSave st cursor total hist provider now)) = cursor
    rw [Mail.stateSave_token]
    exact Mail.decode_encOptStr cursor
  · show Mail.decodeInt (Mail.get_total (Mail.stateSave st cursor total hist provider now)) = total
    rw [Mail.stateSave_total]
    rfl
  · show Mail.decodeHistory (Mail.get_history (Mail.stateSave st cursor total hist provider now)) = hist
    rw [Mail.stateSave_history]
    exact Mail.decode_encHistory hist

/-- C6 witness: a concrete round-trip through the state file. -/
theorem claim_C6_witness :
    Mail.decodeOptStr (Mail.get_token (Mail.stateLoad (some (Mail.stateSave
      Mail.default_state (some "page-7") 5 [("Dev/GitHub", 3), ("Misc/Other", 2)]
      (some "gmail") "2026-01-01T00:00:00")))) = some "page-7" ∧
    Mail.decodeInt (Mail.get_total (Mail.stateLoad (some (Mail.stateSave
      Mail.default_state (some "page-7") 5 [("Dev/GitHub", 3), ("Misc/Other", 2)]
      (some "gmail") "2026-01-01T00:00:00")))) = 5 ∧
    Mail.decodeHistory (Mail.get_history (Mail.stateLoad (some (Mail.stateSave
      Mail.default_state (some "page-7") 5 [("Dev/GitHub", 3), ("Misc/Other", 2)]
      (some "gmail") "2026-01-01T00:00:00")))) = [("Dev/GitHub", 3), ("Misc/Other", 2)] :=
  claim_C6 Mail.default_state (some "page-7") 5 [("Dev/GitHub", 3), ("Misc/Other", 2)]
    (some "gmail") "2026-01-01T00:00:00" (by decide)

/-- C9 counterexample: while `StateManager.save` writes, a concurrent
reader can observe the truncated file — a snapshot that is not the full
record — because `save` opens the state file with mode `"w"`
(truncate-in-place) and has no temporary file or rename step. -/
theorem claim_C9_counterexample :
    Mail.FileSnap.truncated ∈ Mail.saveSnapshots (Mail.stateSave Mail.default_state
      (some "page-7") 1 [("Dev/GitHub", 1)] (some "gmail") "2026-01-01T00:00:00") ∧
    Mail.FileSnap.truncated ≠ Mail.FileSnap.full (Mail.stateSave Mail.default_state
      (some "page-7") 1 [("Dev/GitHub", 1)] (some "gmail") "2026-01-01T00:00:00") := by
  exact ⟨List.mem_cons_self _ _, fun h => Mail.FileSnap.noConfusion h⟩

/-- C9 (amended): `save` does overwrite the record — the final file
content is the full new record — but it does so by truncating and
rewriting the file in place (no write-then-rename), so the write trace
contains an intermediate snapshot, the truncated file, that a concurrent
reader may observe. -/
theorem claim_C9_amended (st : List (String × Mail.Json)) (cursor : Option String)
    (total : Int) (hist : List (String × Int)) (provider : Option String)
    (now : String) :
    (Mail.saveSnapshots (Mail.stateSave st cursor total hist provider now)).getLast? =
      some (Mail.FileSnap.full (Mail.stateSave st cursor total hist provider now)) ∧
    Mail.FileSnap.truncated ∈
      Mail.saveSnapshots (Mail.stateSave st cursor total hist provider now) := by
  exact ⟨rfl, List.mem_cons_self _ _⟩

namespace Mail

theorem apply_actions_go_counts {σ : Type} (P : ProviderOracle σ) :
    ∀ (actions : List LabelAction) (s : σ) (res : ProcessingResult),
      (apply_actions_go P s res actions).2.processed_count =
        res.processed_count + actions.length ∧
      (apply_actions_go P s res actions).2.success_count +
        (apply_actions_go P s res actions).2.error_count =
        res.success_count + res.error_count + actions.length := by
  intro actions
  induction actions with
  | nil => intro s res; exact ⟨by simp [apply_actions_go], by simp [apply_actions_go]⟩
  | cons a rest ih =>
    intro s res
    unfold apply_actions_go
    rcases hone : applyOneAction P s res.label_counts a with ⟨⟨s', lc'⟩, out⟩
    cases out with
    | ok u =>
      have h := ih s' { res with label_counts := lc',
                                 success_count := res.success_count + 1,
                                 processed_count := res.processed_count + 1 }
      obtain ⟨h1, h2⟩ := h
      simp only [List.length_cons] at h1 h2 ⊢
      constructor
      · rw [h1]
        show res.processed_count + 1 + rest.length = res.processed_count + (rest.length + 1)
        omega
      · rw [h2]
        show res.success_count + 1 + res.error_count + rest.length =
          res.success_count + res.error_count + (rest.length + 1)
        omega
    | error e =>
      have h := ih s' { res with label_counts := lc',
                                 error_count := res.error_count + 1,
                                 errors := res.errors ++ [a.message_id ++ ": " ++ e],
                                 processed_count := res.processed_count + 1 }
      obtain ⟨h1, h2⟩ := h
      simp only [List.length_cons] at h1 h2 ⊢
      constructor
      · rw [h1]
        show res.processed_count + 1 + rest.length = res.processed_count + (rest.length + 1)
        omega
      · rw [h2]
        show res.success_count + (res.error_count + 1) + rest.length =
          res.success_count + res.error_count + (rest.length + 1)
        omega

end Mail

/-- C10: for every provider behaviour and every list of actions, the
default `apply_actions` counts every action exactly once —
`processed_count` equals the number of actions and equals
`success_count + error_count`, even when applying an action raises. -/
theorem claim_C10 {σ : Type} (P : Mail.ProviderOracle σ) (s : σ)
    (actions : List Mail.LabelAction) :
    (Mail.apply_actions P s actions).2.processed_count = actions.length ∧
    (Mail.apply_actions P s actions).2.processed_count =
      (Mail.apply_actions P s actions).2.success_count +
        (Mail.apply_actions P s actions).2.error_count := by
  have h := Mail.apply_actions_go_counts P actions s Mail.emptyResult
  refine ⟨?_, ?_⟩
  · rw [show Mail.apply_actions P s actions = Mail.apply_actions_go P s Mail.emptyResult actions from rfl]
    rw [h.1]
    simp [Mail.emptyResult]
  · rw [show Mail.apply_actions P s actions = Mail.apply_actions_go P s Mail.emptyResult actions from rfl]
    rw [h.1, h.2]
    simp [Mail.emptyResult]

namespace Mail

theorem glStateSave_token (st : List (String × Json)) (tok : Option String)
    (total : Int) (hist : List (String × Int)) :
    get_token (glStateSave st tok total hist) = encOptStr tok := by
  unfold glStateSave get_token
  rw [lookup_objSet_ne _ _ _ _ (by decide), lookup_objSet_ne _ _ _ _ (by decide),
    lookup_objSet_self]
  rfl

theorem glStateSave_total (st : List (String × Json)) (tok : Option String)
    (total : Int) (hist : List (String × Int)) :
    get_total (glStateSave st tok total hist) = Json.num total := by
  unfold glStateSave get_total
  rw [lookup_objSet_ne _ _ _ _ (by decide), lookup_objSet_self]
  rfl

theorem glStateSave_history (st : List (String × Json)) (tok : Option String)
    (total : Int) (hist : List (String × Int)) :
    get_history (glStateSave st tok total hist) = encHistory hist := by
  unfold glStateSave get_history
  rw [lookup_objSet_self]
  rfl

/-- When the first listing of a loop iteration returns no messages under
the default query, the loop ends at once, clearing the saved cursor and
leaving the loop variables untouched. -/
theorem glRunLoop_empty_first {σ : Type} (S : GmailService σ)
    (pb : σ → List String → List (String × Int) →
      σ × Except PyErr (List (String × Int) × Int))
    (n : Nat) (st : GLState σ) (ps' : σ) (next : Option String)
    (hlist : S.listMessages st.ps "has:nouserlabels" st.page_token =
      (ps', Except.ok ([], next))) :
    glRunLoop S pb "has:nouserlabels" (n + 1) st =
      ({ st with ps := ps',
                 sdict := glStateSave st.sdict none st.total_processed st.stats,
                 fileJ := some (glStateSave st.sdict none st.total_processed st.stats) },
        GLExit.finished) := by
  unfold glRunLoop
  rw [hlist]
  rfl

end Mail

/-- Support for C7: when an unhandled non-`KeyboardInterrupt` error
escapes the orchestration loop (for any provider behaviour, any
configuration with a state file, any fuel and any starting state), the
`try`-block portion of `run_labeler` writes a checkpoint holding the
loop's last known cursor, total and histogram to the state file, and
re-raises the error to the caller. This handler is dead code in the
source: see `claim_C7_bug`. -/
theorem run_labeler_try_checkpoints {σ : Type} (P : Mail.CliProvider σ)
    (cfg : Mail.CliConfig) (hasCat : Bool)
    (fuel : Nat) (st0 : Mail.CliRunState σ) (e : String)
    (hstate : cfg.stateOn = true)
    (herr : (Mail.cliRunLoop P cfg hasCat fuel st0).2 = Mail.LoopExit.errored (Mail.PyErr.exn e)) :
    (Mail.run_labeler_try P cfg hasCat fuel st0).2 = Mail.RunOutcome.raised e ∧
    (Mail.run_labeler_try P cfg hasCat fuel st0).1.fileJ =
      some (Mail.stateSave (Mail.cliRunLoop P cfg hasCat fuel st0).1.sdict
        (Mail.cliRunLoop P cfg hasCat fuel st0).1.page_token
        (Mail.cliRunLoop P cfg hasCat fuel st0).1.total_processed
        (Mail.cliRunLoop P cfg hasCat fuel st0).1.stats (some P.name) cfg.now) ∧
    Mail.get_token (((Mail.run_labeler_try P cfg hasCat fuel st0).1.fileJ).getD []) =
      Mail.encOptStr (Mail.cliRunLoop P cfg hasCat fuel st0).1.page_token ∧
    Mail.get_total (((Mail.run_labeler_try P cfg hasCat fuel st0).1.fileJ).getD []) =
      Mail.Json.num (Mail.cliRunLoop P cfg hasCat fuel st0).1.total_processed ∧
    Mail.get_history (((Mail.run_labeler_try P cfg hasCat fuel st0).1.fileJ).getD []) =
      Mail.encHistory (Mail.cliRunLoop P cfg hasCat fuel st0).1.stats := by
  have hpair : Mail.cliRunLoop P cfg hasCat fuel st0 =
      ((Mail.cliRunLoop P cfg hasCat fuel st0).1, Mail.LoopExit.errored (Mail.PyErr.exn e)) := by
    rw [← herr]
  have hrl : Mail.run_labeler_try P cfg hasCat fuel st0 =
      (Mail.cliSave P cfg (Mail.cliRunLoop P cfg hasCat fuel st0).1, Mail.RunOutcome.raised e) := by
    unfold Mail.run_labeler_try
    rw [hpair]
  have hsave : Mail.cliSave P cfg (Mail.cliRunLoop P cfg hasCat fuel st0).1 =
      { (Mail.cliRunLoop P cfg hasCat fuel st0).1 with
        sdict := Mail.stateSave (Mail.cliRunLoop P cfg hasCat fuel st0).1.sdict
          (Mail.cliRunLoop P cfg hasCat fuel st0).1.page_token
          (Mail.cliRunLoop P cfg hasCat fuel st0).1.total_processed
          (Mail.cliRunLoop P cfg hasCat fuel st0).1.stats (some P.name) cfg.now,
        fileJ := some (Mail.stateSave (Mail.cliRunLoop P cfg hasCat fuel st0).1.sdict
          (Mail.cliRunLoop P cfg hasCat fuel st0).1.page_token
          (Mail.cliRunLoop P cfg hasCat fuel st0).1.total_processed
          (Mail.cliRunLoop P cfg hasCat fuel st0).1.stats (some P.name) cfg.now) } := by
    unfold Mail.cliSave
    rw [if_pos hstate]
  rw [hrl, hsave]
  exact ⟨rfl, rfl, Mail.stateSave_token _ _ _ _ _ _,
    Mail.stateSave_total _ _ _ _ _ _, Mail.stateSave_history _ _ _ _ _ _⟩

/-- A concrete instance of `run_labeler_try_checkpoints`: a provider
whose `apply_actions` raises `"boom"` on the first page; the handler
re-raises it and the state file holds the checkpoint of the loop
variables at the failure. -/
theorem run_labeler_try_checkpoints_example :
    (Mail.run_labeler_try Mail.demoProvider Mail.demoCfg false 2 Mail.demoSt0).2 =
      Mail.RunOutcome.raised "boom" ∧
    (Mail.run_labeler_try Mail.demoProvider Mail.demoCfg false 2 Mail.demoSt0).1.fileJ =
      some (Mail.stateSave (Mail.cliRunLoop Mail.demoProvider Mail.demoCfg false 2 Mail.demoSt0).1.sdict
        (Mail.cliRunLoop Mail.demoProvider Mail.demoCfg false 2 Mail.demoSt0).1.page_token
        (Mail.cliRunLoop Mail.demoProvider Mail.demoCfg false 2 Mail.demoSt0).1.total_processed
        (Mail.cliRunLoop Mail.demoProvider Mail.demoCfg false 2 Mail.demoSt0).1.stats
        (some Mail.demoProvider.name) Mail.demoCfg.now) ∧
    Mail.get_token (((Mail.run_labeler_try Mail.demoProvider Mail.demoCfg false 2 Mail.demoSt0).1.fileJ).getD []) =
      Mail.encOptStr (Mail.cliRunLoop Mail.demoProvider Mail.demoCfg false 2 Mail.demoSt0).1.page_token ∧
    Mail.get_total (((Mail.run_labeler_try Mail.demoProvider Mail.demoCfg false 2 Mail.demoSt0).1.fileJ).getD []) =
      Mail.Json.num (Mail.cliRunLoop Mail.demoProvider Mail.demoCfg false 2 Mail.demoSt0).1.total_processed ∧
    Mail.get_history (((Mail.run_labeler_try Mail.demoProvider Mail.demoCfg false 2 Mail.demoSt0).1.fileJ).getD []) =
      Mail.encHistory (Mail.cliRunLoop Mail.demoProvider Mail.demoCfg false 2 Mail.demoSt0).1.stats :=
  run_labeler_try_checkpoints Mail.demoProvider Mail.demoCfg false 2 Mail.demoSt0 "boom" rfl (by decide)

/-- C7 (the code never reaches the loop): `run_labeler`'s first
statement (cli.py line 123) reads `ProviderCapabilities.CATEGORIES`,
a member the Flag in `src/providers/base.py` does not define, so for
every provider, configuration, fuel and state file the call raises
`AttributeError` before the `try` block — the state file is left
untouched and no checkpoint is written; the checkpoint-then-re-raise
handler the claim describes (proved in `run_labeler_try_checkpoints`)
is unreachable. -/
theorem claim_C7_bug {σ : Type} (P : Mail.CliProvider σ) (cfg : Mail.CliConfig)
    (fuel : Nat) (file : Option (List (String × Mail.Json))) (ps : σ) :
    Mail.run_labeler P cfg fuel file ps = (file, Mail.RunOutcome.raised "AttributeError") ∧
    (Mail.PROVIDER_CAPABILITIES.map Prod.fst).contains "CATEGORIES" = false :=
  ⟨rfl, rfl⟩

/-- C8: if the very first page listing of the legacy run (under the
default, cursor-eligible query) returns no messages, the run ends
immediately with the histogram and total unchanged from the loaded
state (hence an empty histogram on a fresh state file), and the
persisted cursor is cleared to null. -/
theorem claim_C8 {σ : Type} (S : Mail.GmailService σ)
    (pb : σ → List String → List (String × Int) →
      σ × Except Mail.PyErr (List (String × Int) × Int))
    (fuel : Nat) (file : Option (List (String × Mail.Json))) (ps ps' : σ)
    (next : Option String)
    (hfuel : 0 < fuel)
    (hlist : S.listMessages ps "has:nouserlabels"
        (Mail.decodeOptStr (Mail.get_token (Mail.glStateLoad file))) =
      (ps', Except.ok ([], next))) :
    (Mail.glRun S pb "has:nouserlabels" fuel file ps).2 = Mail.GLExit.finished ∧
    (Mail.glRun S pb "has:nouserlabels" fuel file ps).1.stats =
      Mail.decodeHistory (Mail.get_history (Mail.glStateLoad file)) ∧
    (Mail.glRun S pb "has:nouserlabels" fuel file ps).1.total_processed =
      Mail.decodeInt (Mail.get_total (Mail.glStateLoad file)) ∧
    (Mail.glRun S pb "has:nouserlabels" fuel file ps).1.fileJ =
      some (Mail.glStateSave (Mail.glStateLoad file) none
        (Mail.decodeInt (Mail.get_total (Mail.glStateLoad file)))
        (Mail.decodeHistory (Mail.get_history (Mail.glStateLoad file)))) ∧
    Mail.get_token (((Mail.glRun S pb "has:nouserlabels" fuel file ps).1.fileJ).getD []) =
      Mail.Json.null ∧
    (file = none → (Mail.glRun S pb "has:nouserlabels" fuel file ps).1.stats = []) := by
  cases fuel with
  | zero => exact absurd hfuel (by omega)
  | succ n =>
    have hrw : Mail.glRun S pb "has:nouserlabels" (n + 1) file ps =
        Mail.glRunLoop S pb "has:nouserlabels" (n + 1)
          { ps := ps, sdict := Mail.glStateLoad file, fileJ := file,
            page_token := Mail.decodeOptStr (Mail.get_token (Mail.glStateLoad file)),
            total_processed := Mail.decodeInt (Mail.get_total (Mail.glStateLoad file)),
            stats := Mail.decodeHistory (Mail.get_history (Mail.glStateLoad file)) } := rfl
    rw [hrw, Mail.glRunLoop_empty_first S pb n
      { ps := ps, sdict := Mail.glStateLoad file, fileJ := file,
        page_token := Mail.decodeOptStr (Mail.get_token (Mail.glStateLoad file)),
        total_processed := Mail.decodeInt (Mail.get_total (Mail.glStateLoad file)),
        stats := Mail.decodeHistory (Mail.get_history (Mail.glStateLoad file)) } ps' next hlist]
    refine ⟨rfl, rfl, rfl, rfl, ?_, ?_⟩
    · show Mail.get_token (Mail.glStateSave (Mail.glStateLoad file) none
        (Mail.decodeInt (Mail.get_total (Mail.glStateLoad file)))
        (Mail.decodeHistory (Mail.get_history (Mail.glStateLoad file)))) = Mail.Json.null
      rw [Mail.glStateSave_token]
      rfl
    · intro h
      subst h
      rfl

/-- C8 witness: a fresh state file and a service whose first page is
empty — the run finishes at once, the histogram is empty, the total is
zero and the cleared cursor is persisted. -/
theorem claim_C8_witness :
    (Mail.glRun Mail.glDemoService Mail.glDemoPB "has:nouserlabels" 1 none ()).2 =
      Mail.GLExit.finished ∧
    (Mail.glRun Mail.glDemoService Mail.glDemoPB "has:nouserlabels" 1 none ()).1.stats =
      Mail.decodeHistory (Mail.get_history (Mail.glStateLoad none)) ∧
    (Mail.glRun Mail.glDemoService Mail.glDemoPB "has:nouserlabels" 1 none ()).1.total_processed =
      Mail.decodeInt (Mail.get_total (Mail.glStateLoad none)) ∧
    (Mail.glRun Mail.glDemoService Mail.glDemoPB "has:nouserlabels" 1 none ()).1.fileJ =
      some (Mail.glStateSave (Mail.glStateLoad none) none
        (Mail.decodeInt (Mail.get_total (Mail.glStateLoad none)))
        (Mail.decodeHistory (Mail.get_history (Mail.glStateLoad none)))) ∧
    Mail.get_token (((Mail.glRun Mail.glDemoService Mail.glDemoPB "has:nouserlabels" 1 none ()).1.fileJ).getD []) =
      Mail.Json.null ∧
    ((none : Option (List (String × Mail.Json))) = none →
      (Mail.glRun Mail.glDemoService Mail.glDemoPB "has:nouserlabels" 1 none ()).1.stats = []) :=
  claim_C8 Mail.glDemoService Mail.glDemoPB 1 none () () none (by decide) rfl
